import Mathlib

/-!
Shallow embedding of `find-insecure-gh-repos.py`, a sequential compliance
scanner that shells out to the `gh` CLI.  The external world is modelled by
two oracles: `Env` maps a full command string to the stripped stdout of a
successful call (`none` models a nonzero exit, i.e. `CalledProcessError`),
and `Parse` models Python's `json.loads` (`none` models `JSONDecodeError`).
Python runtime values that can flow out of `json.loads` are modelled by
`PyValue`; uncaught Python exceptions are modelled by `PyErr`.
-/

/-- Python values as produced by `json.loads` (floats are subsumed by `int`
for the purposes of this development; only truthiness and the `dict`
structure matter to the program). -/
inductive PyValue where
  | pynone : PyValue
  | pybool : Bool → PyValue
  | pyint : Int → PyValue
  | pystr : String → PyValue
  | pylist : List PyValue → PyValue
  | pydict : List (String × PyValue) → PyValue
deriving Repr

/-- Uncaught Python exceptions that the script can raise. -/
inductive PyErr where
  | jsonDecodeError : PyErr
  | attributeError : PyErr
  | keyError : PyErr
  | typeError : PyErr
deriving DecidableEq, Repr

/-- Python truthiness (`bool(v)`) for the modelled values. -/
def pyTruthy : PyValue → Bool
  | PyValue.pynone => false
  | PyValue.pybool b => b
  | PyValue.pyint n => n != 0
  | PyValue.pystr s => !s.isEmpty
  | PyValue.pylist xs => !xs.isEmpty
  | PyValue.pydict d => !d.isEmpty

mutual
/-- Python `repr(v)` for the modelled values (string escaping and quote
selection inside `repr` of a string are abstracted to plain single quotes;
the program only ever feeds these into f-strings). -/
def pyRepr : PyValue → String
  | PyValue.pynone => "None"
  | PyValue.pybool true => "True"
  | PyValue.pybool false => "False"
  | PyValue.pyint n => toString n
  | PyValue.pystr s => "\x27" ++ s ++ "\x27"
  | PyValue.pylist xs => "[" ++ pyReprList xs ++ "]"
  | PyValue.pydict d => "\x7b" ++ pyReprDict d ++ "\x7d"

/-- Comma-separated `repr` of list elements. -/
def pyReprList : List PyValue → String
  | [] => ""
  | [x] => pyRepr x
  | x :: y :: rest => pyRepr x ++ ", " ++ pyReprList (y :: rest)

/-- Comma-separated `repr` of dict entries. -/
def pyReprDict : List (String × PyValue) → String
  | [] => ""
  | [kv] => "\x27" ++ kv.1 ++ "\x27: " ++ pyRepr kv.2
  | kv :: kv2 :: rest => "\x27" ++ kv.1 ++ "\x27: " ++ pyRepr kv.2 ++ ", " ++ pyReprDict (kv2 :: rest)
end

/-- Python `str(v)`: identical to `repr` except on strings. -/
def pyStr : PyValue → String
  | PyValue.pystr s => s
  | v => pyRepr v

/-- Python `v[key]` for a string key: dict lookup (`KeyError` when absent),
`TypeError` on every non-dict value. -/
def pyGetItemStr (v : PyValue) (key : String) : Except PyErr PyValue :=
  match v with
  | PyValue.pydict d =>
      match d.lookup key with
      | some x => Except.ok x
      | none => Except.error PyErr.keyError
  | _ => Except.error PyErr.typeError

/-- Python iteration (`for x in v`): lists yield elements, strings yield
one-character strings, dicts yield their keys; other values raise
`TypeError`.  `len(v)` is defined on exactly the same values and equals the
length of this list. -/
def pyIter : PyValue → Except PyErr (List PyValue)
  | PyValue.pylist xs => Except.ok xs
  | PyValue.pystr s => Except.ok (s.toList.map (fun c => PyValue.pystr (String.singleton c)))
  | PyValue.pydict d => Except.ok (d.map (fun kv => PyValue.pystr kv.1))
  | _ => Except.error PyErr.typeError

/-- The external command oracle: stripped stdout of a successful call, or
`none` for a nonzero exit status. -/
def Env : Type := String → Option String

/-- The `json.loads` oracle: `none` models a raised `JSONDecodeError`. -/
def Parse : Type := String → Option PyValue

/-- A string of `n` spaces (`" " * n`). -/
def spaces (n : Nat) : String := String.mk (List.replicate n ' ')

/-- ASCII whitespace as recognised by Python's `str.strip()` (the exotic
unicode space characters are irrelevant to this development). -/
def isPySpace (c : Char) : Bool :=
  c = ' ' || c = '\t' || c = '\n' || c = '\x0d' || c = '\x0b' || c = '\x0c'

/-- Python's `str.strip()`: remove leading and trailing whitespace. -/
def pyStrip (s : String) : String :=
  String.mk (((s.toList.dropWhile isPySpace).reverse.dropWhile isPySpace).reverse)

/-- The `gh repo list` command built by `main`. -/
def listCmd (org : String) : String :=
  "gh repo list " ++ org ++ " --limit 1000 --json name"

/-- The branch-probe command built by `main`. -/
def branchCmd (org repo branch : String) : String :=
  "gh api repos/" ++ org ++ "/" ++ repo ++ "/branches/" ++ branch

/-- The protection-probe command built by `check_branch_protection`. -/
def protectionCmd (org repo branch : String) : String :=
  branchCmd org repo branch ++ "/protection"

/-- The signatures-probe command built by `check_required_signatures`. -/
def signaturesCmd (org repo branch : String) : String :=
  branchCmd org repo branch ++ "/protection/required_signatures"

/-- The external calls the script can issue, in structured form; `cmdOf`
gives the literal command string each one stands for. -/
inductive TraceCall where
  | listRepos : String → TraceCall
  | branch : String → String → String → TraceCall
  | protection : String → String → String → TraceCall
  | signatures : String → String → String → TraceCall
deriving DecidableEq, Repr

/-- The literal shell command of a call. -/
def TraceCall.cmdOf : TraceCall → String
  | TraceCall.listRepos org => listCmd org
  | TraceCall.branch org repo br => branchCmd org repo br
  | TraceCall.protection org repo br => protectionCmd org repo br
  | TraceCall.signatures org repo br => signaturesCmd org repo br

/-- `run_command`: run a shell command, return its stripped stdout, or
`None` on `CalledProcessError`. -/
def run_command (env : Env) (command : String) : Option String :=
  (env command).map pyStrip

/-- `check_branch_protection`: probes the protection endpoint and returns
`protection is not None` — true exactly when the call exits successfully,
regardless of the output text. -/
def check_branch_protection (env : Env) (org_name repo_name branch_name : String) : Bool :=
  (run_command env (protectionCmd org_name repo_name branch_name)).isSome

/-- `check_required_signatures`: probes the signatures endpoint; a falsy
response yields `False`; otherwise the body is parsed and
`.get("enabled", False)` is taken, with only `JSONDecodeError` caught —
`.get` on a non-dict value raises an uncaught `AttributeError`. -/
def check_required_signatures (env : Env) (parse : Parse)
    (org_name repo_name branch_name : String) : Except PyErr PyValue :=
  match run_command env (signaturesCmd org_name repo_name branch_name) with
  | some signatures =>
      if signatures.isEmpty then Except.ok (PyValue.pybool false)
      else
        match parse signatures with
        | none => Except.ok (PyValue.pybool false)
        | some (PyValue.pydict d) =>
            Except.ok ((d.lookup "enabled").getD (PyValue.pybool false))
        | some _ => Except.error PyErr.attributeError
  | none => Except.ok (PyValue.pybool false)

/-- The truthy branch-existence test from the loop body:
`branch_exists = run_command(...)` followed by `if branch_exists:` — a
successful call whose stripped output is empty is falsy. -/
def branchExists (env : Env) (org repo br : String) : Bool :=
  match run_command env (branchCmd org repo br) with
  | some s => !s.isEmpty
  | none => false

/-- The branch `main` resolves to under the loop's probe order: `"main"`
when its probe is truthy, else `"master"` when that probe is truthy, else
none. -/
def resolvedBranch (env : Env) (org repo : String) : Option String :=
  if branchExists env org repo "main" then some "main"
  else if branchExists env org repo "master" then some "master"
  else none

/-- Outcome of evaluating one repository: its issue list (or an uncaught
exception) together with the external calls issued, in order. -/
structure ProcResult where
  issues : Except PyErr (List String)
  trace : List TraceCall
deriving Repr

/-- The loop body once a truthy branch probe is found: check protection,
and only when protected check required signatures. -/
def evalBranch (env : Env) (parse : Parse) (org repo br : String) : ProcResult :=
  if check_branch_protection env org repo br then
    match check_required_signatures env parse org repo br with
    | Except.ok v =>
        { issues := Except.ok
            (if pyTruthy v then []
             else ["Commit signing not required for \x27" ++ br ++ "\x27 branch"]),
          trace := [TraceCall.protection org repo br, TraceCall.signatures org repo br] }
    | Except.error e =>
        { issues := Except.error e,
          trace := [TraceCall.protection org repo br, TraceCall.signatures org repo br] }
  else
    { issues := Except.ok ["\x27" ++ br ++ "\x27 branch is not protected"],
      trace := [TraceCall.protection org repo br] }

/-- The `for branch in ["main", "master"]` loop with its `break`/`else`:
probe `main`; if truthy, evaluate it and stop; otherwise probe `master`;
if neither probe is truthy, record the no-branch issue. -/
def processRepo (env : Env) (parse : Parse) (org repo : String) : ProcResult :=
  if branchExists env org repo "main" then
    let r := evalBranch env parse org repo "main"
    { issues := r.issues, trace := TraceCall.branch org repo "main" :: r.trace }
  else if branchExists env org repo "master" then
    let r := evalBranch env parse org repo "master"
    { issues := r.issues,
      trace := TraceCall.branch org repo "main" :: TraceCall.branch org repo "master" :: r.trace }
  else
    { issues := Except.ok ["No main or master branch found"],
      trace := [TraceCall.branch org repo "main", TraceCall.branch org repo "master"] }

/-- Result of a whole run: a normal `sys.exit` with a code, or an uncaught
Python exception (which CPython turns into a traceback on stderr). -/
inductive RunResult where
  | exited : Nat → RunResult
  | crashed : PyErr → RunResult
deriving DecidableEq, Repr

/-- Whether a run result is an uncaught exception. -/
def RunResult.isCrash : RunResult → Bool
  | RunResult.exited _ => false
  | RunResult.crashed _ => true

/-- Observables of a run: stdout chunks in emission order (each `print`
contributes its argument plus a newline, each `sys.stdout.write` its raw
argument), the external calls issued, the final non-compliant counter, the
per-repository report (name, issue list) in scan order, and the result. -/
structure Run where
  output : List String
  trace : List TraceCall
  count : Nat
  report : List (String × List String)
  result : RunResult
deriving Repr

/-- Accumulated observables of the repository loop; `err` is set when an
iteration raised, in which case the other fields hold what was produced
before the raise. -/
structure ScanState where
  output : List String
  trace : List TraceCall
  count : Nat
  report : List (String × List String)
  err : Option PyErr
deriving Repr

/-- The progress line written for repository number `i` of `total`. -/
def progressLine (i total : Nat) (repoName : String) : String :=
  "\rProcessing: " ++ toString i ++ "/" ++ toString total ++ " (" ++ repoName ++ ")" ++ spaces 20

/-- The stdout chunks the loop body emits for one repository after its
issues are known: nothing when compliant, else a progress-clear write, the
repository header and one line per issue. -/
def issueOutput (org repoName : String) (issues : List String) : List String :=
  if issues.isEmpty then []
  else
    ("\r" ++ spaces 80 ++ "\r") ::
    ("\n" ++ org ++ "/" ++ repoName ++ ":\n") ::
    issues.map (fun issue => "  - " ++ issue ++ "\n")

/-- The `for i, repo in enumerate(repos, 1)` loop: extract `repo["name"]`,
write the progress line, evaluate the repository, and on a non-empty issue
list clear the progress line, print the issues and bump the counter.  An
uncaught exception stops the loop with `err` set. -/
def scanLoop (env : Env) (parse : Parse) (org : String) (total : Nat) :
    List PyValue → Nat → ScanState
  | [], _ => { output := [], trace := [], count := 0, report := [], err := none }
  | repo :: rest, i =>
      match pyGetItemStr repo "name" with
      | Except.error e =>
          { output := [], trace := [], count := 0, report := [], err := some e }
      | Except.ok nameVal =>
          let repoName := pyStr nameVal
          let pr := processRepo env parse org repoName
          match pr.issues with
          | Except.error e =>
              { output := [progressLine i total repoName], trace := pr.trace,
                count := 0, report := [], err := some e }
          | Except.ok issues =>
              let st := scanLoop env parse org total rest (i + 1)
              { output := progressLine i total repoName :: (issueOutput org repoName issues ++ st.output),
                trace := pr.trace ++ st.trace,
                count := (if issues.isEmpty then 0 else 1) + st.count,
                report := (repoName, issues) :: st.report,
                err := st.err }

/-- The summary printed when the loop completes: lines 99-102 of the
source. -/
def summaryLine (non_compliant_count total_repos : Nat) : String :=
  if non_compliant_count = 0 then "\nAll repositories meet the requirements.\n"
  else "\nTotal: " ++ toString non_compliant_count ++ " non-compliant repositories out of "
       ++ toString total_repos ++ "\n"

/-- The body of `main` after the argument check, for organization `org`:
list the repositories (aborting with exit code 1 on a falsy result), parse
the listing, and scan every repository before printing the summary. -/
def runScan (env : Env) (parse : Parse) (org : String) : Run :=
  let fetchOut := "Fetching repositories for organization: " ++ org ++ "...\n"
  match run_command env (listCmd org) with
  | none =>
      { output := [fetchOut, "No repositories found or error accessing the organization.\n"],
        trace := [TraceCall.listRepos org], count := 0, report := [],
        result := RunResult.exited 1 }
  | some repos_json =>
      if repos_json.isEmpty then
        { output := [fetchOut, "No repositories found or error accessing the organization.\n"],
          trace := [TraceCall.listRepos org], count := 0, report := [],
          result := RunResult.exited 1 }
      else
        match parse repos_json with
        | none =>
            { output := [fetchOut], trace := [TraceCall.listRepos org], count := 0,
              report := [], result := RunResult.crashed PyErr.jsonDecodeError }
        | some repos =>
            match pyIter repos with
            | Except.error e =>
                { output := [fetchOut], trace := [TraceCall.listRepos org], count := 0,
                  report := [], result := RunResult.crashed e }
            | Except.ok items =>
                let total_repos := items.length
                let headerOut :=
                  ["Found " ++ toString total_repos ++ " repositories. Checking compliance for each repository...\n",
                   "\nRepositories not meeting requirements:\n"]
                let st := scanLoop env parse org total_repos items 1
                match st.err with
                | some e =>
                    { output := fetchOut :: headerOut ++ st.output,
                      trace := TraceCall.listRepos org :: st.trace,
                      count := st.count, report := st.report,
                      result := RunResult.crashed e }
                | none =>
                    { output := fetchOut :: headerOut ++ st.output ++
                        [("\r" ++ spaces 80 ++ "\r"), summaryLine st.count total_repos],
                      trace := TraceCall.listRepos org :: st.trace,
                      count := st.count, report := st.report,
                      result := RunResult.exited 0 }

/-- The whole program `main`, taking `sys.argv` (program name included):
with any argument count other than two it prints the usage line and exits
with code 1; otherwise it scans the organization named by the argument. -/
def run (argv : List String) (env : Env) (parse : Parse) : Run :=
  match argv with
  | [_, org] => runScan env parse org
  | _ =>
      { output := ["Usage: " ++ argv.headD "" ++ " <organization-name>\n"],
        trace := [], count := 0, report := [], result := RunResult.exited 1 }

/-- A parse oracle for environments whose responses never reach
`json.loads`. -/
def noneParse : Parse := fun _ => none

/-- An environment in which every external call fails. -/
def noneEnv : Env := fun _ => none

/-- A successful protection probe with empty output: the spec calls this
"unprotected", the code calls it protected. -/
def cexEnvC2 : Env :=
  fun c => if c = protectionCmd "o" "r" "main" then some "" else none

/-- A `main` probe that succeeds with empty output: the spec counts any
non-error response as "exists", the code's truthiness test does not. -/
def cexEnvC3 : Env :=
  fun c => if c = branchCmd "o" "r" "main" then some "" else none

/-- An environment where `main` exists but its protection probe fails. -/
def witEnvC4 : Env :=
  fun c => if c = branchCmd "o" "r" "main" then some "x" else none

/-- An organization with one repository whose `main` branch is protected
but whose signatures endpoint answers with the JSON number `5`. -/
def cexEnvC5 : Env :=
  fun c =>
    if c = listCmd "o" then some "[\x7b\x22name\x22: \x22r\x22\x7d]"
    else if c = branchCmd "o" "r" "main" then some "x"
    else if c = protectionCmd "o" "r" "main" then some "y"
    else if c = signaturesCmd "o" "r" "main" then some "5"
    else none

/-- The `json.loads` behaviour on the responses of `cexEnvC5`: `"5"` is
well-formed JSON denoting a number, not an object. -/
def cexParseC5 : Parse :=
  fun s =>
    if s = "[\x7b\x22name\x22: \x22r\x22\x7d]" then
      some (PyValue.pylist [PyValue.pydict [("name", PyValue.pystr "r")]])
    else if s = "5" then some (PyValue.pyint 5)
    else none

/-- An organization with one compliant repository and an empty listing
response for a second organization query; used to exercise the counting
and compliance conclusions. -/
def witEnvC6 : Env :=
  fun c =>
    if c = listCmd "o" then some "[]"
    else if c = branchCmd "o" "r" "main" then some "x"
    else if c = protectionCmd "o" "r" "main" then some "y"
    else if c = signaturesCmd "o" "r" "main" then some "e"
    else none

/-- The `json.loads` behaviour on the responses of `witEnvC6`. -/
def witParseC6 : Parse :=
  fun s =>
    if s = "[]" then some (PyValue.pylist [])
    else if s = "e" then some (PyValue.pydict [("enabled", PyValue.pybool true)])
    else none

/-- A listing call that succeeds with the JSON text of an empty list. -/
def cexEnvC1 : Env :=
  fun c => if c = listCmd "acme" then some "[]" else none

/-- The `json.loads` behaviour on the responses of `cexEnvC1`. -/
def cexParseC1 : Parse :=
  fun s => if s = "[]" then some (PyValue.pylist []) else none

/-- An organization with one repository whose `main` branch is protected
but whose signatures endpoint answers with the JSON list `[1]`. -/
def cexEnvC8 : Env :=
  fun c =>
    if c = listCmd "o" then some "[\x7b\x22name\x22: \x22r\x22\x7d]"
    else if c = branchCmd "o" "r" "main" then some "x"
    else if c = protectionCmd "o" "r" "main" then some "y"
    else if c = signaturesCmd "o" "r" "main" then some "[1]"
    else none

/-- The `json.loads` behaviour on the responses of `cexEnvC8`. -/
def cexParseC8 : Parse :=
  fun s =>
    if s = "[\x7b\x22name\x22: \x22r\x22\x7d]" then
      some (PyValue.pylist [PyValue.pydict [("name", PyValue.pystr "r")]])
    else if s = "[1]" then some (PyValue.pylist [PyValue.pyint 1])
    else none

/-- An organization with one repository whose `main` branch exists but is
unprotected: a complete run with one non-compliant repository. -/
def witEnvC8 : Env :=
  fun c =>
    if c = listCmd "o" then some "[\x7b\x22name\x22: \x22r\x22\x7d]"
    else if c = branchCmd "o" "r" "main" then some "x"
    else none

/-- The `json.loads` behaviour on the responses of `witEnvC8`. -/
def witParseC8 : Parse :=
  fun s =>
    if s = "[\x7b\x22name\x22: \x22r\x22\x7d]" then
      some (PyValue.pylist [PyValue.pydict [("name", PyValue.pystr "r")]])
    else none

/-- One of two identical environments used to state determinism. -/
def witEnvC9 : Env := fun c => if c = listCmd "o" then some "[]" else none

/-- The other of two identical environments used to state determinism. -/
def witEnvC9b : Env := fun c => if c = listCmd "o" then some "[]" else none

/-- An environment whose signatures endpoint answers with a JSON object
whose `enabled` field holds the truthy string `"false"`. -/
def witEnvC10 : Env :=
  fun c =>
    if c = branchCmd "o" "r" "main" then some "x"
    else if c = protectionCmd "o" "r" "main" then some "y"
    else if c = signaturesCmd "o" "r" "main" then some "e"
    else none

/-- The `json.loads` behaviour on the responses of `witEnvC10`. -/
def witParseC10 : Parse :=
  fun s =>
    if s = "e" then some (PyValue.pydict [("enabled", PyValue.pystr "false")])
    else none

/-- Every call issued by `evalBranch` is the protection probe or the
signatures probe of its branch. -/
lemma evalBranch_trace_mem (env : Env) (parse : Parse) (org repo br : String)
    (c : TraceCall) (hc : c ∈ (evalBranch env parse org repo br).trace) :
    c = TraceCall.protection org repo br ∨ c = TraceCall.signatures org repo br := by
  unfold evalBranch at hc
  by_cases hp : check_branch_protection env org repo br
  · simp only [hp, if_true] at hc
    rcases hs : check_required_signatures env parse org repo br with v | e <;>
      simp [hs] at hc <;> tauto
  · simp only [hp, Bool.false_eq_true, if_false] at hc
    simp at hc
    tauto

/-- The claim is false on the code: a protection probe that succeeds with
empty output makes `check_branch_protection` return true, although the
probe did not return a non-empty protection configuration. -/
theorem empty_protection_counts_protected_cex :
    run_command cexEnvC2 (protectionCmd "o" "r" "main") = some "" ∧
      check_branch_protection cexEnvC2 "o" "r" "main" = true := by
  constructor <;> rfl

/-- Amended claim: `check_branch_protection` returns true exactly when the
protection call exits successfully — the output text, empty or not, is
never inspected; a failed call yields false, not an error. -/
theorem check_branch_protection_iff_success (env : Env) (org repo br : String) :
    check_branch_protection env org repo br = true ↔
      ∃ s, env (protectionCmd org repo br) = some s := by
  unfold check_branch_protection run_command
  rcases h : env (protectionCmd org repo br) with _ | s <;> simp [h]

/-- The claim is false on the code: the `main` probe returns a non-error
(empty) response, yet the repository is reported as having no main or
master branch, and the `master` probe is still issued. -/
theorem empty_branch_probe_not_found_cex :
    cexEnvC3 (branchCmd "o" "r" "main") = some "" ∧
      (processRepo cexEnvC3 noneParse "o" "r").issues =
        Except.ok ["No main or master branch found"] ∧
      TraceCall.branch "o" "r" "master" ∈ (processRepo cexEnvC3 noneParse "o" "r").trace := by
  refine ⟨rfl, rfl, ?_⟩
  have h : (processRepo cexEnvC3 noneParse "o" "r").trace =
      [TraceCall.branch "o" "r" "main", TraceCall.branch "o" "r" "master"] := rfl
  rw [h]
  simp

/-- Amended claim: `main` is probed first and then `master`; a probe counts
as "exists" only when it returns a non-error response whose stripped output
is non-empty; the first existing branch wins and `master` is not probed
when `main` exists; when neither exists the issue list is exactly the
no-branch message and no protection or signature call is issued. -/
theorem branch_resolution_probe_order (env : Env) (parse : Parse) (org repo br : String) :
    (branchExists env org repo br = true ↔
      ∃ s, run_command env (branchCmd org repo br) = some s ∧ s ≠ "") ∧
    (branchExists env org repo "main" = true →
      TraceCall.branch org repo "master" ∉ (processRepo env parse org repo).trace) ∧
    (branchExists env org repo "main" = false →
      branchExists env org repo "master" = false →
      (processRepo env parse org repo).issues = Except.ok ["No main or master branch found"] ∧
      (processRepo env parse org repo).trace =
        [TraceCall.branch org repo "main", TraceCall.branch org repo "master"]) := by
  refine ⟨?_, ?_, ?_⟩
  · unfold branchExists
    rcases h : run_command env (branchCmd org repo br) with _ | s
    · simp [h]
    · simp only [h]
      constructor
      · intro hs
        refine ⟨s, rfl, ?_⟩
        intro he
        subst he
        exact absurd hs (by decide)
      · rintro ⟨s', hs', hne⟩
        rw [Option.some.injEq] at hs'
        subst hs'
        cases hs : s.isEmpty
        · simp [hs]
        · exact absurd ((String.isEmpty_iff s).mp hs) hne
  · intro hm hmem
    simp only [processRepo, hm, if_true] at hmem
    simp only [List.mem_cons] at hmem
    rcases hmem with h | h
    · exact TraceCall.noConfusion h (fun _ _ h3 => by simp at h3)
    · rcases evalBranch_trace_mem env parse org repo "main" _ h with h' | h' <;>
        exact TraceCall.noConfusion h'
  · intro hm hM
    simp [processRepo, hm, hM]

/-- Confirmed claim: when the resolved primary branch is unprotected, the
issue list is exactly the single unprotected-branch message and the
required-signatures endpoint is never called for that repository. -/
theorem unprotected_branch_single_issue_no_signature_call
    (env : Env) (parse : Parse) (org repo br : String)
    (hres : resolvedBranch env org repo = some br)
    (hp : check_branch_protection env org repo br = false) :
    (processRepo env parse org repo).issues =
      Except.ok ["\x27" ++ br ++ "\x27 branch is not protected"] ∧
    ∀ b, TraceCall.signatures org repo b ∉ (processRepo env parse org repo).trace := by
  unfold resolvedBranch at hres
  by_cases hm : branchExists env org repo "main"
  · simp only [hm, if_true, Option.some.injEq] at hres
    subst hres
    simp [processRepo, hm, evalBranch, hp]
  · simp only [hm, Bool.false_eq_true, if_false] at hres
    by_cases hM : branchExists env org repo "master"
    · simp only [hM, if_true, Option.some.injEq] at hres
      subst hres
      simp [processRepo, hm, hM, evalBranch, hp]
    · simp [hM] at hres

/-- Witness: in an environment where both probes fail, the amended
resolution claim yields the exact no-branch issue list. -/
theorem branch_resolution_probe_order_witness :
    (processRepo noneEnv noneParse "o" "r").issues =
      Except.ok ["No main or master branch found"] :=
  ((branch_resolution_probe_order noneEnv noneParse "o" "r" "main").2.2
    (by rfl) (by rfl)).1

/-- Witness: a repository whose `main` exists but whose protection probe
fails gets exactly the unprotected-branch issue. -/
theorem unprotected_branch_single_issue_no_signature_call_witness :
    (processRepo witEnvC4 noneParse "o" "r").issues =
      Except.ok ["\x27main\x27 branch is not protected"] :=
  (unprotected_branch_single_issue_no_signature_call witEnvC4 noneParse
    "o" "r" "main" (by rfl) (by rfl)).1

/-- The issue list produced by `evalBranch` is empty, the single
unprotected message, or the single no-signatures message. -/
lemma evalBranch_issues_cases (env : Env) (parse : Parse) (org repo br : String)
    (l : List String) (h : (evalBranch env parse org repo br).issues = Except.ok l) :
    l = [] ∨ l = ["\x27" ++ br ++ "\x27 branch is not protected"] ∨
      l = ["Commit signing not required for \x27" ++ br ++ "\x27 branch"] := by
  unfold evalBranch at h
  by_cases hp : check_branch_protection env org repo br
  · simp only [hp, if_true] at h
    rcases hcs : check_required_signatures env parse org repo br with e | v
    · simp [hcs] at h
    · simp only [hcs] at h
      by_cases ht : pyTruthy v <;> simp [ht] at h <;> tauto
  · simp only [hp, Bool.false_eq_true, if_false] at h
    simp at h
    tauto

/-- Confirmed claim: a repository's issue list holds at most one issue,
and evaluation short-circuits in the order no-branch, then unprotected,
then signatures-not-required: the possible lists are exactly the empty
list, the single no-branch message when no branch resolves, and the single
unprotected or single no-signatures message for the resolved branch. -/
theorem at_most_one_issue_per_repo (env : Env) (parse : Parse) (org repo : String)
    (l : List String) (h : (processRepo env parse org repo).issues = Except.ok l) :
    l.length ≤ 1 ∧
    (l = [] ∨
      (resolvedBranch env org repo = none ∧ l = ["No main or master branch found"]) ∨
      ∃ br, resolvedBranch env org repo = some br ∧
        (l = ["\x27" ++ br ++ "\x27 branch is not protected"] ∨
         l = ["Commit signing not required for \x27" ++ br ++ "\x27 branch"])) := by
  unfold processRepo at h
  by_cases hm : branchExists env org repo "main"
  · simp only [hm, if_true] at h
    rcases evalBranch_issues_cases env parse org repo "main" l h with h' | h' | h' <;>
      subst h' <;> simp [resolvedBranch, hm]
  · simp only [hm, Bool.false_eq_true, if_false] at h
    by_cases hM : branchExists env org repo "master"
    · simp only [hM, if_true] at h
      rcases evalBranch_issues_cases env parse org repo "master" l h with h' | h' | h' <;>
        subst h' <;> simp [resolvedBranch, hm, hM]
    · simp only [hM, Bool.false_eq_true, if_false] at h
      simp at h
      subst h
      simp [resolvedBranch, hm, hM]

/-- Witness: the at-most-one-issue bound at a concrete repository with no
branches. -/
theorem at_most_one_issue_per_repo_witness :
    (["No main or master branch found"] : List String).length ≤ 1 :=
  (at_most_one_issue_per_repo noneEnv noneParse "o" "r"
    ["No main or master branch found"] (by rfl)).1

/-- The claim is false on the code: `"5"` is well-formed JSON without an
`enabled` field, yet `check_required_signatures` raises an uncaught
`AttributeError` instead of returning false, and the whole run crashes. -/
theorem non_object_signatures_crash_cex :
    cexParseC5 "5" = some (PyValue.pyint 5) ∧
    check_required_signatures cexEnvC5 cexParseC5 "o" "r" "main" =
      Except.error PyErr.attributeError ∧
    (run ["prog", "o"] cexEnvC5 cexParseC5).result =
      RunResult.crashed PyErr.attributeError :=
  ⟨rfl, rfl, rfl⟩

/-- Amended claim: `check_required_signatures` returns false when the
endpoint yields no response (or an empty one), when the body is not
well-formed JSON, or when the response is a JSON object without an
`enabled` field; in the last situation the caller reports the
no-signatures issue.  A well-formed non-object JSON response instead
raises an uncaught `AttributeError`. -/
theorem required_signatures_false_cases (env : Env) (parse : Parse) (org repo br : String) :
    (run_command env (signaturesCmd org repo br) = none →
      check_required_signatures env parse org repo br = Except.ok (PyValue.pybool false)) ∧
    (∀ s, run_command env (signaturesCmd org repo br) = some s → parse s = none →
      check_required_signatures env parse org repo br = Except.ok (PyValue.pybool false)) ∧
    (∀ s d, run_command env (signaturesCmd org repo br) = some s →
      parse s = some (PyValue.pydict d) → d.lookup "enabled" = none →
      check_required_signatures env parse org repo br = Except.ok (PyValue.pybool false)) ∧
    (resolvedBranch env org repo = some br →
      check_branch_protection env org repo br = true →
      check_required_signatures env parse org repo br = Except.ok (PyValue.pybool false) →
      (processRepo env parse org repo).issues =
        Except.ok ["Commit signing not required for \x27" ++ br ++ "\x27 branch"]) := by
  refine ⟨?_, ?_, ?_, ?_⟩
  · intro h
    unfold check_required_signatures
    rw [h]
  · intro s hs hp
    unfold check_required_signatures
    rw [hs]
    by_cases he : s.isEmpty <;> simp [he, hp]
  · intro s d hs hp hl
    unfold check_required_signatures
    rw [hs]
    by_cases he : s.isEmpty <;> simp [he, hp, hl]
  · intro hres hprot hcs
    unfold resolvedBranch at hres
    by_cases hm : branchExists env org repo "main"
    · simp only [hm, if_true, Option.some.injEq] at hres
      subst hres
      simp [processRepo, hm, evalBranch, hprot, hcs, pyTruthy]
    · simp only [hm, Bool.false_eq_true, if_false] at hres
      by_cases hM : branchExists env org repo "master"
      · simp only [hM, if_true, Option.some.injEq] at hres
        subst hres
        simp [processRepo, hm, hM, evalBranch, hprot, hcs, pyTruthy]
      · simp [hM] at hres

/-- Witness: a failing signatures call yields false. -/
theorem required_signatures_false_cases_witness :
    check_required_signatures noneEnv noneParse "o" "r" "main" =
      Except.ok (PyValue.pybool false) :=
  (required_signatures_false_cases noneEnv noneParse "o" "r" "main").1 (by rfl)

/-- Confirmed claim: a well-formed JSON object response with an `enabled`
field makes `check_required_signatures` return that field's value
unchanged, with no boolean coercion; hence a truthy non-boolean value
counts as signatures-required in the caller and yields an empty issue
list. -/
theorem enabled_field_returned_unchanged (env : Env) (parse : Parse)
    (org repo br s : String) (d : List (String × PyValue)) (v : PyValue)
    (hc : run_command env (signaturesCmd org repo br) = some s)
    (hne : s.isEmpty = false)
    (hp : parse s = some (PyValue.pydict d))
    (hl : d.lookup "enabled" = some v) :
    check_required_signatures env parse org repo br = Except.ok v ∧
    (pyTruthy v = true →
      resolvedBranch env org repo = some br →
      check_branch_protection env org repo br = true →
      (processRepo env parse org repo).issues = Except.ok []) := by
  have h1 : check_required_signatures env parse org repo br = Except.ok v := by
    unfold check_required_signatures
    rw [hc]
    simp [hne, hp, hl]
  refine ⟨h1, ?_⟩
  intro ht hres hprot
  unfold resolvedBranch at hres
  by_cases hm : branchExists env org repo "main"
  · simp only [hm, if_true, Option.some.injEq] at hres
    subst hres
    simp [processRepo, hm, evalBranch, hprot, h1, ht]
  · simp only [hm, Bool.false_eq_true, if_false] at hres
    by_cases hM : branchExists env org repo "master"
    · simp only [hM, if_true, Option.some.injEq] at hres
      subst hres
      simp [processRepo, hm, hM, evalBranch, hprot, h1, ht]
    · simp [hM] at hres

/-- Witness: an `enabled` field holding the string `"false"` is returned
unchanged and the repository is treated as compliant. -/
theorem enabled_field_returned_unchanged_witness :
    check_required_signatures witEnvC10 witParseC10 "o" "r" "main" =
      Except.ok (PyValue.pystr "false") ∧
    (processRepo witEnvC10 witParseC10 "o" "r").issues = Except.ok [] :=
  ⟨(enabled_field_returned_unchanged witEnvC10 witParseC10 "o" "r" "main" "e"
      [("enabled", PyValue.pystr "false")] (PyValue.pystr "false")
      (by rfl) (by rfl) (by rfl) (by rfl)).1,
   (enabled_field_returned_unchanged witEnvC10 witParseC10 "o" "r" "main" "e"
      [("enabled", PyValue.pystr "false")] (PyValue.pystr "false")
      (by rfl) (by rfl) (by rfl) (by rfl)).2 (by rfl) (by rfl) (by rfl)⟩

/-- `run` on a two-element argument vector is the organization scan. -/
lemma run_pair (prog org : String) (env : Env) (parse : Parse) :
    run [prog, org] env parse = runScan env parse org := rfl

/-- Counting invariant of the repository loop: as long as no iteration
raised, the accumulated counter equals the number of report entries whose
issue list is non-empty. -/
lemma scanLoop_count (env : Env) (parse : Parse) (org : String) (total : Nat) :
    ∀ (items : List PyValue) (i : Nat),
      (scanLoop env parse org total items i).err = none →
      (scanLoop env parse org total items i).count =
        ((scanLoop env parse org total items i).report.filter
          (fun p => !p.2.isEmpty)).length := by
  intro items
  induction items with
  | nil => intro i _; simp [scanLoop]
  | cons repo rest ih =>
      intro i herr
      simp only [scanLoop] at herr ⊢
      rcases hname : pyGetItemStr repo "name" with e | nameVal
      · simp [hname] at herr
      · simp only [hname] at herr ⊢
        rcases hiss : (processRepo env parse org (pyStr nameVal)).issues with e | issues
        · simp [hiss] at herr
        · simp only [hiss] at herr ⊢
          by_cases hie : issues.isEmpty <;>
            simp [hie, ih (i + 1) (by simpa [hiss] using herr)]
          omega

/-- Confirmed claim, first part: whenever the run reaches the summary
(result `exited 0`), the non-compliant counter equals the number of
scanned repositories with a non-empty issue list; second part: a
repository whose resolved branch is protected with truthy required
signatures gets an empty issue list, so it contributes nothing. -/
theorem noncompliant_count_matches_report :
    (∀ (argv : List String) (env : Env) (parse : Parse),
      (run argv env parse).result = RunResult.exited 0 →
      (run argv env parse).count =
        ((run argv env parse).report.filter (fun p => !p.2.isEmpty)).length) ∧
    (∀ (env : Env) (parse : Parse) (org repo br : String) (v : PyValue),
      resolvedBranch env org repo = some br →
      check_branch_protection env org repo br = true →
      check_required_signatures env parse org repo br = Except.ok v →
      pyTruthy v = true →
      (processRepo env parse org repo).issues = Except.ok []) := by
  constructor
  · intro argv env parse hres
    match argv with
    | [] => simp [run] at hres
    | [_] => simp [run] at hres
    | _ :: _ :: _ :: _ => simp [run] at hres
    | [prog, org] =>
        rw [run_pair] at hres ⊢
        unfold runScan at hres ⊢
        rcases hl : run_command env (listCmd org) with _ | s
        · simp [hl] at hres
        · simp only [hl] at hres ⊢
          by_cases he : s.isEmpty
          · simp [he] at hres
          · simp only [he, Bool.false_eq_true, if_false] at hres ⊢
            rcases hp : parse s with _ | repos
            · simp [hp] at hres
            · simp only [hp] at hres ⊢
              rcases hi : pyIter repos with e | items
              · simp [hi] at hres
              · simp only [hi] at hres ⊢
                rcases herr : (scanLoop env parse org items.length items 1).err with _ | e
                · simp only [herr]
                  exact scanLoop_count env parse org items.length items 1 herr
                · simp [herr] at hres
  · intro env parse org repo br v hresb hprot hcs ht
    unfold resolvedBranch at hresb
    by_cases hm : branchExists env org repo "main"
    · simp only [hm, if_true, Option.some.injEq] at hresb
      subst hresb
      simp [processRepo, hm, evalBranch, hprot, hcs, ht]
    · simp only [hm, Bool.false_eq_true, if_false] at hresb
      by_cases hM : branchExists env org repo "master"
      · simp only [hM, if_true, Option.some.injEq] at hresb
        subst hresb
        simp [processRepo, hm, hM, evalBranch, hprot, hcs, ht]
      · simp [hM] at hresb

/-- Witness: counting and compliance at a concrete environment. -/
theorem noncompliant_count_matches_report_witness :
    (run ["p", "o"] witEnvC6 witParseC6).count = 0 ∧
    (processRepo witEnvC6 witParseC6 "o" "r").issues = Except.ok [] :=
  ⟨by rw [noncompliant_count_matches_report.1 ["p", "o"] witEnvC6 witParseC6 (by rfl)]; rfl,
   noncompliant_count_matches_report.2 witEnvC6 witParseC6 "o" "r" "main"
     (PyValue.pybool true) (by rfl) (by rfl) (by rfl) (by rfl)⟩

/-- The claim is false on the code: an organization with zero repositories
whose listing call succeeds with the JSON text `[]` does not abort — the
run prints the all-compliant summary and exits with code 0. -/
theorem empty_listing_exits_zero_cex :
    cexEnvC1 (listCmd "acme") = some "[]" ∧
    cexParseC1 "[]" = some (PyValue.pylist []) ∧
    (run ["prog", "acme"] cexEnvC1 cexParseC1).result = RunResult.exited 0 ∧
    (run ["prog", "acme"] cexEnvC1 cexParseC1).output.getLast? =
      some "\nAll repositories meet the requirements.\n" :=
  ⟨rfl, rfl, rfl, rfl⟩

/-- Amended claim: the run aborts with the error message and exit code 1
exactly in the falsy-listing cases — the listing call fails, or its
stripped output is the empty string; a successful listing that denotes an
empty repository list instead proceeds to the summary and exits 0. -/
theorem falsy_listing_aborts (prog org : String) (env : Env) (parse : Parse)
    (h : run_command env (listCmd org) = none ∨ run_command env (listCmd org) = some "") :
    (run [prog, org] env parse).result = RunResult.exited 1 ∧
    (run [prog, org] env parse).output =
      ["Fetching repositories for organization: " ++ org ++ "...\n",
       "No repositories found or error accessing the organization.\n"] := by
  rw [run_pair]
  unfold runScan
  rcases h with h | h
  · rw [h]
    exact ⟨rfl, rfl⟩
  · rw [h]
    simp [show ("" : String).isEmpty = true from rfl]

/-- Witness: a failed listing call aborts with exit code 1. -/
theorem falsy_listing_aborts_witness :
    (run ["p", "o"] noneEnv noneParse).result = RunResult.exited 1 :=
  (falsy_listing_aborts "p" "o" noneEnv noneParse (Or.inl rfl)).1

/-- The last chunk of a list of output chunks ending in a two-element
tail. -/
lemma getLast?_append_pair {α : Type} (l : List α) (a b : α) :
    (l ++ [a, b]).getLast? = some b := by
  rw [List.getLast?_append_of_ne_nil l (by simp)]
  rfl

/-- The last chunk of output built by one header chunk followed by the
loop output and a two-chunk tail. -/
lemma getLast?_cons_append_pair {α : Type} (c : α) (l : List α) (x y : α) :
    (c :: (l ++ [x, y])).getLast? = some y := by
  have h : c :: (l ++ [x, y]) = (c :: l) ++ [x, y] := by simp
  rw [h, getLast?_append_pair]

/-- The claim is false on the code: a run whose listing succeeds and is
non-empty can still end in an uncaught exception (signatures endpoint
answering the well-formed JSON list `[1]`), so it neither prints a final
summary line nor exits with code 0. -/
theorem signatures_crash_run_cex :
    run_command cexEnvC8 (listCmd "o") = some "[\x7b\x22name\x22: \x22r\x22\x7d]" ∧
    cexParseC8 "[\x7b\x22name\x22: \x22r\x22\x7d]" =
      some (PyValue.pylist [PyValue.pydict [("name", PyValue.pystr "r")]]) ∧
    (run ["prog", "o"] cexEnvC8 cexParseC8).result =
      RunResult.crashed PyErr.attributeError :=
  ⟨rfl, rfl, rfl⟩

/-- Amended claim: for every run with a successful, non-empty repository
listing that completes without an uncaught exception, the run exits with
code 0 — also when non-compliant repositories were found — and the final
chunk printed is the all-compliant line when the non-compliant count is
zero and otherwise the total line over the non-compliant count and the
number of listed repositories. -/
theorem summary_line_and_exit_zero (prog org s : String) (env : Env) (parse : Parse)
    (items : List PyValue)
    (hl : run_command env (listCmd org) = some s)
    (hne : s.isEmpty = false)
    (hp : parse s = some (PyValue.pylist items))
    (_hnil : items ≠ [])
    (hcrash : (run [prog, org] env parse).result.isCrash = false) :
    (run [prog, org] env parse).result = RunResult.exited 0 ∧
    ((run [prog, org] env parse).count = 0 →
      (run [prog, org] env parse).output.getLast? =
        some "\nAll repositories meet the requirements.\n") ∧
    ((run [prog, org] env parse).count ≠ 0 →
      (run [prog, org] env parse).output.getLast? =
        some ("\nTotal: " ++ toString (run [prog, org] env parse).count ++
          " non-compliant repositories out of " ++ toString items.length ++ "\n")) := by
  rw [run_pair] at hcrash ⊢
  unfold runScan at hcrash ⊢
  rw [hl] at hcrash ⊢
  simp only [hne, Bool.false_eq_true, if_false, hp, pyIter] at hcrash ⊢
  rcases herr : (scanLoop env parse org items.length items 1).err with _ | e
  · refine ⟨by simp [herr], ?_, ?_⟩ <;> intro hcount <;>
      simp at hcount <;>
      simp [herr, summaryLine, hcount, getLast?_cons_append_pair, getLast?_append_pair]
  · rw [herr] at hcrash
    simp [RunResult.isCrash] at hcrash

/-- Witness: a complete run over one unprotected repository exits 0. -/
theorem summary_line_and_exit_zero_witness :
    (run ["p", "o"] witEnvC8 witParseC8).result = RunResult.exited 0 :=
  (summary_line_and_exit_zero "p" "o" "[\x7b\x22name\x22: \x22r\x22\x7d]" witEnvC8 witParseC8
    [PyValue.pydict [("name", PyValue.pystr "r")]]
    (by rfl) (by rfl) (by rfl) (by simp) (by rfl)).1

/-- Confirmed claim: the program is deterministic — two runs with the same
argument vector, the same command-to-response mapping and the same JSON
parsing behaviour produce identical observables: output chunks, issued
calls, counter, report and exit result. -/
theorem run_deterministic (argv : List String) (env1 env2 : Env) (parse1 parse2 : Parse)
    (henv : ∀ c, env1 c = env2 c) (hparse : ∀ s, parse1 s = parse2 s) :
    run argv env1 parse1 = run argv env2 parse2 := by
  have he : env1 = env2 := funext henv
  have hp : parse1 = parse2 := funext hparse
  rw [he, hp]

/-- Witness: determinism applied to two identical concrete environments. -/
theorem run_deterministic_witness :
    run ["p", "o"] witEnvC9 noneParse = run ["p", "o"] witEnvC9b noneParse :=
  run_deterministic ["p", "o"] witEnvC9 witEnvC9b noneParse noneParse
    (fun _ => rfl) (fun _ => rfl)
